import Mathlib

/-!
Verification of the OTP authentication core of `server.js` (CareerPro AI).

The two Express handlers `POST /api/auth/send-otp` and
`POST /api/auth/verify-otp` are shallowly embedded as pure functions over
explicit table states.  The SQLite tables `otps` (PRIMARY KEY email) and
`users` (id PRIMARY KEY, email UNIQUE) are modelled as association lists
keyed by email; each prepared statement of the source becomes one Lean
operation with the same name.  Every call of `Date.now()`,
`Math.random()` and `crypto.randomUUID()` in the source becomes an
explicit parameter of the embedding, and the `resend.emails.send` await
becomes a boolean `deliveryOk` parameter (`false` = the promise rejects).
JavaScript falsiness of the destructured string request fields
(`undefined`, missing, or the empty string) is modelled by
`Option String` together with `reqMissing`.
-/

/-- A row of the `otps` table: `email TEXT PRIMARY KEY, otp TEXT, expires_at INTEGER`. -/
structure OtpRow where
  email : String
  otp : String
  expires_at : Nat
  deriving Repr, DecidableEq

/-- A row of the `users` table: `id TEXT PRIMARY KEY, email TEXT UNIQUE, name TEXT, created_at INTEGER`. -/
structure UserRow where
  id : String
  email : String
  name : String
  created_at : Nat
  deriving Repr, DecidableEq

/-- The `user` object of the 200 response body of verify-otp.  For a fresh
registration the source builds `{ id: userId, email, name, created_at: Date.now() }`
where `name` is the raw request field (possibly `undefined`, hence `Option`);
for an existing user it is the stored row, whose `name` column is a string. -/
structure RespUser where
  id : String
  email : String
  name : Option String
  created_at : Nat
  deriving Repr, DecidableEq

/-- Errors raised by the database layer.  `INSERT INTO users` violates the
unique constraint on `email` when a row with that email is already present. -/
inductive DBError where
  | duplicateKey
  deriving Repr, DecidableEq

/-- Outcome of the send-otp handler, line 49-83 of `server.js`. -/
inductive SendResult where
  | badRequest (msg : String)
  | deliveryFailure
  | ok (msg : String)
  deriving Repr, DecidableEq

/-- Outcome of the verify-otp handler, line 86-128 of `server.js`. -/
inductive VerifyResult where
  | badRequest (msg : String)
  | invalidOrExpired (msg : String)
  | dbError (e : DBError)
  | okAuth (user : RespUser) (msg : String)
  deriving Repr, DecidableEq

/-- HTTP status of a send-otp outcome (400 set at line 53; a rejected
delivery await propagates through the express error path as 500). -/
def sendStatus : SendResult → Nat
  | .badRequest _ => 400
  | .deliveryFailure => 500
  | .ok _ => 200

/-- HTTP status of a verify-otp outcome (400 at line 90, 401 at line 99,
an uncaught database error becomes 500, success 200 at line 123). -/
def verifyStatus : VerifyResult → Nat
  | .badRequest _ => 400
  | .invalidOrExpired _ => 401
  | .dbError _ => 500
  | .okAuth _ _ => 200

/-- JavaScript falsiness of a destructured request field of string type:
`!x` is true when the field is absent (`undefined`) or the empty string. -/
def reqMissing : Option String → Bool
  | none => true
  | some s => s.isEmpty

/-- Embeds `SELECT * FROM otps WHERE email = ?` (line 95-96). -/
def getOTP (t : List OtpRow) (email : String) : Option OtpRow :=
  t.find? (fun r => r.email == email)

/-- Embeds `INSERT OR REPLACE INTO otps (email, otp, expires_at) VALUES (?, ?, ?)`
(line 61-62): the primary key on `email` makes this replace any existing
row for that email. -/
def upsertOTP (t : List OtpRow) (email otp : String) (expiresAt : Nat) : List OtpRow :=
  ⟨email, otp, expiresAt⟩ :: t.filter (fun r => !(r.email == email))

/-- Embeds `DELETE FROM otps WHERE email = ?` (line 104-105). -/
def deleteOTP (t : List OtpRow) (email : String) : List OtpRow :=
  t.filter (fun r => !(r.email == email))

/-- Embeds `SELECT * FROM users WHERE email = ?` (line 108-109). -/
def getUser (t : List UserRow) (email : String) : Option UserRow :=
  t.find? (fun r => r.email == email)

/-- Embeds `INSERT INTO users (id, email, name, created_at) VALUES (?, ?, ?, ?)`
(line 113-114): fails with `DuplicateKey` when the unique `email` column
already holds this value. -/
def insertUser (t : List UserRow) (row : UserRow) : Except DBError (List UserRow) :=
  if (t.find? (fun r => r.email == row.email)).isSome then .error .duplicateKey
  else .ok (row :: t)

/-- Line 46: `Math.floor(100000 + Math.random() * 900000)`.  With
`Math.random()` ranging over `[0, 1)`, the floor equals `100000 + k` where
`k = Math.floor(Math.random() * 900000)` ranges over `0 .. 899999`; the
sample `k` is the explicit parameter. -/
def generateOTPNum (k : Fin 900000) : Nat := 100000 + k.val

/-- Line 46: `generateOTP = () => Math.floor(100000 + Math.random() * 900000).toString()`. -/
def generateOTP (k : Fin 900000) : String := toString (generateOTPNum k)

/-- The stored row rendered as the response user object (existing-user
branch of line 109/124: the row is returned as `user` unchanged). -/
def respOfRow (u : UserRow) : RespUser :=
  ⟨u.id, u.email, some u.name, u.created_at⟩

/-- Lines 108-116 of the verify-otp handler: look the user up by email and,
when absent, insert a fresh row.  `usersAtLookup` and `usersAtInsert` are
the contents of the `users` table observed by the SELECT (line 109) and by
the INSERT (line 114) respectively; they coincide unless another request
commits between the two statements.  The source wraps neither statement in
a try/catch, so an insert failure propagates. -/
def resolveUser (usersAtLookup usersAtInsert : List UserRow) (email : String)
    (name : Option String) (newId : String) (nowIns nowResp : Nat) :
    Except DBError (RespUser × List UserRow) :=
  match getUser usersAtLookup email with
  | some u => .ok (respOfRow u, usersAtInsert)
  | none =>
    match insertUser usersAtInsert ⟨newId, email, name.getD "", nowIns⟩ with
    | .error e => .error e
    | .ok users2 => .ok (⟨newId, email, name, nowResp⟩, users2)

/-- The send-otp handler (lines 49-83).  `otpCode` is the value returned by
`generateOTP()` at line 57, `now` the value of `Date.now()` at line 58, and
`deliveryOk` whether the `resend.emails.send` await at line 65 resolves.
The challenge is stored (line 62) before the delivery await, so a delivery
failure leaves the fresh challenge in the table. -/
def sendOtp (otps : List OtpRow) (email name : Option String)
    (otpCode : String) (now : Nat) (deliveryOk : Bool) :
    SendResult × List OtpRow :=
  if reqMissing email then
    (.badRequest "Email is required", otps)
  else
    let e := email.getD ""
    let expiresAt := now + 10 * 60 * 1000
    let otps2 := upsertOTP otps e otpCode expiresAt
    let _ := name
    if deliveryOk then (.ok "OTP sent successfully", otps2)
    else (.deliveryFailure, otps2)

/-- The verify-otp handler (lines 86-128).  `now` is `Date.now()` at the
expiry check (line 98), `newId` the `crypto.randomUUID()` of line 112,
`nowIns` and `nowResp` the two `Date.now()` calls of lines 114 and 115.
The guard at line 98 rejects when the row is absent, the stored code
differs from the submitted one under strict string comparison, or
`expires_at < now`; on success the row is deleted (line 105) before the
user is resolved. -/
def verifyOtp (otps : List OtpRow) (users : List UserRow)
    (email otp name : Option String) (now : Nat) (newId : String)
    (nowIns nowResp : Nat) :
    VerifyResult × List OtpRow × List UserRow :=
  if reqMissing email || reqMissing otp then
    (.badRequest "Email and OTP are required", otps, users)
  else
    let e := email.getD ""
    let code := otp.getD ""
    match getOTP otps e with
    | none => (.invalidOrExpired "Invalid or expired OTP", otps, users)
    | some record =>
      if record.otp != code || decide (record.expires_at < now) then
        (.invalidOrExpired "Invalid or expired OTP", otps, users)
      else
        let otps2 := deleteOTP otps e
        match resolveUser users users e name newId nowIns nowResp with
        | .error err => (.dbError err, otps2, users)
        | .ok (u, users2) => (.okAuth u "Authentication successful", otps2, users2)

/-- Truth of the 401 branch of a verify-otp outcome. -/
def isInvalidOrExpired : VerifyResult → Bool
  | .invalidOrExpired _ => true
  | _ => false

/-- Truth of the 200 branch of a verify-otp outcome. -/
def isOkAuth : VerifyResult → Bool
  | .okAuth _ _ => true
  | _ => false

/-- Runs one verify-otp request per element of `ids`, all with the same
email, code, name and clock reading, threading the table states; each
element of `ids` is the fresh UUID that request would draw.  Node's single
thread together with the synchronous better-sqlite3 driver serialises the
handlers, so any set of simultaneous requests executes as such a sequence. -/
def verifySeq (otps : List OtpRow) (users : List UserRow)
    (email otp name : Option String) (now : Nat) :
    List String → List VerifyResult × List OtpRow × List UserRow
  | [] => ([], otps, users)
  | id :: rest =>
    let r := verifyOtp otps users email otp name now id now now
    let rec2 := verifySeq r.2.1 r.2.2 email otp name now rest
    (r.1 :: rec2.1, rec2.2)

/-- Response-user/stored-row agreement, field for field, in the sense of
claim C10: the response object and the table row carry the same id, email,
name and creation time (the row's name column, a string, corresponds to a
present `name` field in the response). -/
def respMatchesRow (u : RespUser) (r : UserRow) : Prop :=
  u.id = r.id ∧ u.email = r.email ∧ u.name = some r.name ∧ u.created_at = r.created_at

instance (u : RespUser) (r : UserRow) : Decidable (respMatchesRow u r) := by
  unfold respMatchesRow; infer_instance

theorem getOTP_upsertOTP_self (t : List OtpRow) (e c : String) (x : Nat) :
    getOTP (upsertOTP t e c x) e = some ⟨e, c, x⟩ := by
  simp [getOTP, upsertOTP, List.find?]

theorem getOTP_deleteOTP_self (t : List OtpRow) (e : String) :
    getOTP (deleteOTP t e) e = none := by
  rw [getOTP, List.find?_eq_none]
  intro r hr
  simp only [deleteOTP, List.mem_filter, Bool.not_eq_true'] at hr
  simp [hr.2]

theorem resolveUser_same_ok (users : List UserRow) (e : String) (name : Option String)
    (id : String) (a b : Nat) :
    ∃ u users2, resolveUser users users e name id a b = .ok (u, users2) := by
  unfold resolveUser
  cases h : getUser users e with
  | some u => exact ⟨respOfRow u, users, rfl⟩
  | none =>
    refine ⟨⟨id, e, name, b⟩, ⟨id, e, name.getD "", a⟩ :: users, ?_⟩
    unfold getUser at h
    simp [insertUser, h]

theorem verifyOtp_valid (otps : List OtpRow) (users : List UserRow) (e c : String)
    (name : Option String) (now : Nat) (id : String) (nI nR : Nat) (r : OtpRow)
    (he : e.isEmpty = false) (hc : c.isEmpty = false)
    (hr : getOTP otps e = some r) (hcode : r.otp = c) (hexp : ¬ r.expires_at < now) :
    ∃ u users2, verifyOtp otps users (some e) (some c) name now id nI nR
      = (.okAuth u "Authentication successful", deleteOTP otps e, users2) := by
  obtain ⟨u, users2, hres⟩ := resolveUser_same_ok users e name id nI nR
  refine ⟨u, users2, ?_⟩
  unfold verifyOtp
  simp [reqMissing, he, hc, hr, hcode, hexp, hres]

theorem verifyOtp_absent (otps : List OtpRow) (users : List UserRow) (e c : String)
    (name : Option String) (now : Nat) (id : String) (nI nR : Nat)
    (he : e.isEmpty = false) (hc : c.isEmpty = false)
    (habs : getOTP otps e = none) :
    verifyOtp otps users (some e) (some c) name now id nI nR
      = (.invalidOrExpired "Invalid or expired OTP", otps, users) := by
  unfold verifyOtp
  simp [reqMissing, he, hc, habs]

/-- C7 (counterexample): the set of codes `generateOTP` can produce has
fewer than 1,000,000 elements, refuting the claim that every 6-digit
decimal string from 000000 through 999999 can be produced (the source
draws from `100000 + [0, 900000)`, a space of 900,000 codes). -/
theorem C7_counterexample : ((Finset.univ : Finset (Fin 900000)).image generateOTP).card < 1000000 := by
  have h1 : ((Finset.univ : Finset (Fin 900000)).image generateOTP).card ≤ 900000 := by
    calc ((Finset.univ : Finset (Fin 900000)).image generateOTP).card
        ≤ (Finset.univ : Finset (Fin 900000)).card := Finset.card_image_le
      _ = 900000 := by rw [Finset.card_univ, Fintype.card_fin]
  omega

/-- C7 (amended): `generateOTP` always renders a number with exactly six
decimal digits — the numeric value lies in `[100000, 999999]` — and the
code space has exactly 900,000 possibilities (not 1,000,000): the map from
the random sample to the numeric code is injective onto that range. -/
theorem C7_code_space :
    (∀ k : Fin 900000,
      100000 ≤ generateOTPNum k ∧ generateOTPNum k ≤ 999999 ∧
      (Nat.digits 10 (generateOTPNum k)).length = 6 ∧
      generateOTP k = toString (generateOTPNum k)) ∧
    ((Finset.univ : Finset (Fin 900000)).image generateOTPNum).card = 900000 := by
  constructor
  · intro k
    have hk := k.isLt
    refine ⟨by simp [generateOTPNum], by simp [generateOTPNum]; omega, ?_, rfl⟩
    rw [Nat.digits_len 10 _ (by norm_num) (by simp [generateOTPNum])]
    have hlog : Nat.log 10 (generateOTPNum k) = 5 := by
      apply Nat.log_eq_of_pow_le_of_lt_pow
      · simp [generateOTPNum]
      · simp only [generateOTPNum]; omega
    omega
  · rw [Finset.card_image_of_injective _ (fun a b h => ?_), Finset.card_univ, Fintype.card_fin]
    exact Fin.ext (Nat.add_left_cancel h)

/-- C3 (counterexample): at the exact boundary instant `now = expiresAt`
(both 100 here) a verification with the correct code succeeds with 200 —
the source's guard is the strict `record.expires_at < Date.now()` — whereas
the claim demands failure when `now >= expiresAt`. -/
theorem C3_counterexample :
    verifyOtp [⟨"a@b.com", "123456", 100⟩] [] (some "a@b.com") (some "123456") none 100 "id1" 100 100
      = (.okAuth ⟨"id1", "a@b.com", none, 100⟩ "Authentication successful", [],
         [⟨"id1", "a@b.com", "", 100⟩])
    ∧ verifyStatus (verifyOtp [⟨"a@b.com", "123456", 100⟩] [] (some "a@b.com") (some "123456")
        none 100 "id1" 100 100).1 = 200 := by
  decide

/-- C5 (counterexample): verify-otp performs no email normalization —
successful verifications for `"A@b.com"` and `"a@b.com"`, which differ only
in letter case, create two distinct user records (a users table of length
2), not one shared record. -/
theorem C5_counterexample :
    verifyOtp [⟨"A@b.com", "111111", 100⟩, ⟨"a@b.com", "222222", 100⟩] []
        (some "A@b.com") (some "111111") none 50 "u1" 50 50
      = (.okAuth ⟨"u1", "A@b.com", none, 50⟩ "Authentication successful",
         [⟨"a@b.com", "222222", 100⟩], [⟨"u1", "A@b.com", "", 50⟩])
    ∧ verifyOtp [⟨"a@b.com", "222222", 100⟩] [⟨"u1", "A@b.com", "", 50⟩]
        (some "a@b.com") (some "222222") none 50 "u2" 50 50
      = (.okAuth ⟨"u2", "a@b.com", none, 50⟩ "Authentication successful",
         [], [⟨"u2", "a@b.com", "", 50⟩, ⟨"u1", "A@b.com", "", 50⟩])
    ∧ ([⟨"u2", "a@b.com", "", 50⟩, ⟨"u1", "A@b.com", "", 50⟩] : List UserRow).length = 2 := by
  decide

/-- C6 (counterexample): when the users table observed by the INSERT
already holds a row for the email (the row a concurrent request would have
created after this request's lookup saw none), the identity-resolution code
of lines 108-116 propagates `DuplicateKey` instead of re-reading and
returning the present row — there is no recovery path in the source. -/
theorem C6_counterexample :
    getUser [⟨"id0", "x@y.com", "Bob", 5⟩] "x@y.com" = some ⟨"id0", "x@y.com", "Bob", 5⟩
    ∧ resolveUser [] [⟨"id0", "x@y.com", "Bob", 5⟩] "x@y.com" none "id1" 7 7
        = .error .duplicateKey := by
  exact ⟨by decide, by rfl⟩

/-- C10 (counterexample): for a first registration with no `name` supplied,
the 200 response's user object differs from the inserted row: the insert
stores `name || ''` (the empty string) while the response carries the raw
absent `name`, so the two do not agree field for field even with both
`Date.now()` samples equal. -/
theorem C10_counterexample :
    verifyOtp [⟨"e@x.com", "123456", 100⟩] [] (some "e@x.com") (some "123456") none 50 "id1" 60 60
      = (.okAuth ⟨"id1", "e@x.com", none, 60⟩ "Authentication successful", [],
         [⟨"id1", "e@x.com", "", 60⟩])
    ∧ ¬ respMatchesRow ⟨"id1", "e@x.com", none, 60⟩ ⟨"id1", "e@x.com", "", 60⟩ := by
  decide

/-- C1: single-use of OTP codes.  A verify-otp call on a live matching
unexpired challenge succeeds, and a second verification for the same email
with the same (still correct) code against the resulting stores fails with
`Invalid or expired OTP` (status 401) at every later instant `now2` —
including instants still inside the original expiry window — because the
success deleted the challenge row before responding. -/
theorem C1_single_use (otps : List OtpRow) (users : List UserRow) (e c : String)
    (name name2 : Option String) (now now2 : Nat) (id id2 : String)
    (nI nR nI2 nR2 : Nat) (r : OtpRow)
    (he : e.isEmpty = false) (hc : c.isEmpty = false)
    (hr : getOTP otps e = some r) (hcode : r.otp = c) (hexp : ¬ r.expires_at < now) :
    isOkAuth (verifyOtp otps users (some e) (some c) name now id nI nR).1 = true
    ∧ verifyOtp (verifyOtp otps users (some e) (some c) name now id nI nR).2.1
        (verifyOtp otps users (some e) (some c) name now id nI nR).2.2
        (some e) (some c) name2 now2 id2 nI2 nR2
      = (.invalidOrExpired "Invalid or expired OTP",
         (verifyOtp otps users (some e) (some c) name now id nI nR).2.1,
         (verifyOtp otps users (some e) (some c) name now id nI nR).2.2)
    ∧ verifyStatus (verifyOtp (verifyOtp otps users (some e) (some c) name now id nI nR).2.1
        (verifyOtp otps users (some e) (some c) name now id nI nR).2.2
        (some e) (some c) name2 now2 id2 nI2 nR2).1 = 401 := by
  obtain ⟨u, users2, h1⟩ := verifyOtp_valid otps users e c name now id nI nR r he hc hr hcode hexp
  rw [h1]
  have h2 := verifyOtp_absent (deleteOTP otps e) users2 e c name2 now2 id2 nI2 nR2 he hc
    (getOTP_deleteOTP_self otps e)
  simp only [] at h2 ⊢
  rw [h2]
  exact ⟨rfl, rfl, rfl⟩

/-- C1 (witness): concrete instance — the first verification succeeds and
the immediate reverification with the same correct code, still inside the
expiry window, is rejected with status 401. -/
theorem C1_witness :
    isOkAuth (verifyOtp [⟨"a@b.com", "123456", 100⟩] [] (some "a@b.com") (some "123456")
        none 50 "id1" 50 50).1 = true
    ∧ verifyStatus (verifyOtp
        (verifyOtp [⟨"a@b.com", "123456", 100⟩] [] (some "a@b.com") (some "123456")
          none 50 "id1" 50 50).2.1
        (verifyOtp [⟨"a@b.com", "123456", 100⟩] [] (some "a@b.com") (some "123456")
          none 50 "id1" 50 50).2.2
        (some "a@b.com") (some "123456") none 60 "id2" 60 60).1 = 401 := by
  have h := C1_single_use [⟨"a@b.com", "123456", 100⟩] [] "a@b.com" "123456" none none
    50 60 "id1" "id2" 50 50 60 60 ⟨"a@b.com", "123456", 100⟩
    (by decide) (by decide) (by decide) (by decide) (by decide)
  exact ⟨h.1, h.2.2⟩

theorem sendOtp_store (otps : List OtpRow) (e : String) (name : Option String)
    (c : String) (now : Nat) (d : Bool) (he : e.isEmpty = false) :
    (sendOtp otps (some e) name c now d).2 = upsertOTP otps e c (now + 10 * 60 * 1000) := by
  unfold sendOtp
  simp only [reqMissing, he, Bool.false_eq_true, if_false, Option.getD_some]
  cases d <;> rfl

/-- C2: supersession.  After two send-otp requests for the same email with
distinct generated codes (any delivery outcomes), a verification with the
first (older) code fails with `Invalid or expired OTP` (status 401) at any
instant — in particular even before the first code's expiry — because the
second `INSERT OR REPLACE` replaced the stored challenge. -/
theorem C2_supersession (otps : List OtpRow) (users : List UserRow) (e : String)
    (name1 name2 nameV : Option String) (c1 c2 : String) (now1 now2 nowV : Nat)
    (d1 d2 : Bool) (id : String) (nI nR : Nat)
    (he : e.isEmpty = false) (hc1 : c1.isEmpty = false) (hne : c1 ≠ c2) :
    verifyOtp (sendOtp (sendOtp otps (some e) name1 c1 now1 d1).2 (some e) name2 c2 now2 d2).2
        users (some e) (some c1) nameV nowV id nI nR
      = (.invalidOrExpired "Invalid or expired OTP",
         (sendOtp (sendOtp otps (some e) name1 c1 now1 d1).2 (some e) name2 c2 now2 d2).2, users)
    ∧ verifyStatus (verifyOtp
        (sendOtp (sendOtp otps (some e) name1 c1 now1 d1).2 (some e) name2 c2 now2 d2).2
        users (some e) (some c1) nameV nowV id nI nR).1 = 401 := by
  rw [sendOtp_store _ e name2 c2 now2 d2 he]
  have hget := getOTP_upsertOTP_self (sendOtp otps (some e) name1 c1 now1 d1).2 e c2
    (now2 + 10 * 60 * 1000)
  have hmain : verifyOtp (upsertOTP (sendOtp otps (some e) name1 c1 now1 d1).2 e c2
      (now2 + 10 * 60 * 1000)) users (some e) (some c1) nameV nowV id nI nR
      = (.invalidOrExpired "Invalid or expired OTP",
         upsertOTP (sendOtp otps (some e) name1 c1 now1 d1).2 e c2 (now2 + 10 * 60 * 1000),
         users) := by
    unfold verifyOtp
    simp [reqMissing, he, hc1, hget, Ne.symm hne]
  rw [hmain]
  exact ⟨rfl, rfl⟩

/-- C2 (witness): concrete instance — after requesting codes 111111 then
222222 for the same email, verifying with 111111 fails with status 401
before either code has expired. -/
theorem C2_witness :
    verifyOtp (sendOtp (sendOtp [] (some "a@b.com") none "111111" 0 true).2
        (some "a@b.com") none "222222" 1 true).2
        [] (some "a@b.com") (some "111111") none 2 "id1" 2 2
      = (.invalidOrExpired "Invalid or expired OTP",
         (sendOtp (sendOtp [] (some "a@b.com") none "111111" 0 true).2
           (some "a@b.com") none "222222" 1 true).2, [])
    ∧ verifyStatus (verifyOtp (sendOtp (sendOtp [] (some "a@b.com") none "111111" 0 true).2
        (some "a@b.com") none "222222" 1 true).2
        [] (some "a@b.com") (some "111111") none 2 "id1" 2 2).1 = 401 :=
  C2_supersession [] [] "a@b.com" none none none "111111" "222222" 0 1 2 true true "id1" 2 2
    (by decide) (by decide) (by decide)

/-- C3 (amended): validation raises-iff with the strict boundary the source
implements.  With both fields present, verify-otp responds 401
`Invalid or expired OTP` if and only if the stored challenge for the email
is absent, or the submitted code differs from the stored code under exact
string comparison, or `expiresAt < now` strictly — so at the exact boundary
instant `now = expiresAt` the verification does NOT fail. -/
theorem C3_validation_iff (otps : List OtpRow) (users : List UserRow) (e c : String)
    (name : Option String) (now : Nat) (id : String) (nI nR : Nat)
    (he : e.isEmpty = false) (hc : c.isEmpty = false) :
    verifyStatus (verifyOtp otps users (some e) (some c) name now id nI nR).1 = 401
      ↔ (match getOTP otps e with
         | none => True
         | some r => r.otp ≠ c ∨ r.expires_at < now) := by
  unfold verifyOtp
  simp only [reqMissing, he, hc, Bool.or_self, Bool.false_eq_true, if_false, Option.getD_some]
  cases h : getOTP otps e with
  | none => simp [verifyStatus]
  | some r =>
    dsimp only
    by_cases hg : (r.otp != c || decide (r.expires_at < now)) = true
    · rw [if_pos hg]
      simp only [Bool.or_eq_true, bne_iff_ne, decide_eq_true_eq] at hg
      simp [verifyStatus, hg]
    · rw [if_neg hg]
      obtain ⟨u, users2, hres⟩ := resolveUser_same_ok users e name id nI nR
      rw [hres]
      simp only [Bool.or_eq_true, bne_iff_ne, decide_eq_true_eq, not_or, not_not,
        Nat.not_lt] at hg
      simp [verifyStatus, hg.1, Nat.not_lt.mpr hg.2]

/-- C3 (witness): concrete instance of the iff at a state holding the
challenge, with a wrong submitted code — the response is 401 and the
right-hand side holds through the code-mismatch disjunct. -/
theorem C3_witness :
    verifyStatus (verifyOtp [⟨"a@b.com", "123456", 100⟩] [] (some "a@b.com") (some "999999")
        none 50 "id1" 50 50).1 = 401
      ↔ (match getOTP [⟨"a@b.com", "123456", 100⟩] "a@b.com" with
         | none => True
         | some r => r.otp ≠ "999999" ∨ r.expires_at < 50) :=
  C3_validation_iff [⟨"a@b.com", "123456", 100⟩] [] "a@b.com" "999999" none 50 "id1" 50 50
    (by decide) (by decide)

theorem verifySeq_absent (e c : String) (name : Option String) (now : Nat)
    (he : e.isEmpty = false) (hc : c.isEmpty = false) (ids : List String) :
    ∀ (otps : List OtpRow) (users : List UserRow), getOTP otps e = none →
      verifySeq otps users (some e) (some c) name now ids
        = (List.replicate ids.length (VerifyResult.invalidOrExpired "Invalid or expired OTP"),
           otps, users) := by
  induction ids with
  | nil => intro otps users habs; rfl
  | cons id rest ih =>
    intro otps users habs
    unfold verifySeq
    rw [verifyOtp_absent otps users e c name now id now now he hc habs]
    simp only [List.length_cons, List.replicate_succ]
    rw [ih otps users habs]

theorem countP_isInvalid_replicate (n : Nat) (m : String) :
    List.countP (fun x => isInvalidOrExpired x)
      (List.replicate n (VerifyResult.invalidOrExpired m)) = n := by
  induction n with
  | zero => rfl
  | succ k ih =>
    rw [List.replicate_succ, List.countP_cons, ih]
    simp [isInvalidOrExpired]

theorem countP_isOkAuth_replicate (n : Nat) (m : String) :
    List.countP (fun x => isOkAuth x)
      (List.replicate n (VerifyResult.invalidOrExpired m)) = 0 := by
  induction n with
  | zero => rfl
  | succ k ih =>
    rw [List.replicate_succ, List.countP_cons, ih]
    simp [isOkAuth]

/-- C4: concurrent verification, serialised model.  Node's single thread
with the synchronous better-sqlite3 driver runs each verify-otp handler's
read-compare-delete without interleaving, so N simultaneous attempts
execute as `verifySeq` in some arrival order.  Starting from a store whose
challenge for the email matches the submitted code and is unexpired, any
non-empty batch of attempts with that code yields exactly one 200 success
and N−1 `Invalid or expired OTP` failures. -/
theorem C4_exactly_one_success (otps : List OtpRow) (users : List UserRow) (e c : String)
    (name : Option String) (now : Nat) (ids : List String) (r : OtpRow)
    (he : e.isEmpty = false) (hc : c.isEmpty = false)
    (hr : getOTP otps e = some r) (hcode : r.otp = c) (hexp : ¬ r.expires_at < now)
    (hids : ids ≠ []) :
    ((verifySeq otps users (some e) (some c) name now ids).1.countP
        (fun x => isOkAuth x)) = 1
    ∧ ((verifySeq otps users (some e) (some c) name now ids).1.countP
        (fun x => isInvalidOrExpired x)) = ids.length - 1 := by
  obtain ⟨id, rest, rfl⟩ := List.exists_cons_of_ne_nil hids
  obtain ⟨u, users2, h1⟩ := verifyOtp_valid otps users e c name now id now now r he hc hr hcode hexp
  unfold verifySeq
  rw [h1]
  dsimp only
  rw [verifySeq_absent e c name now he hc rest (deleteOTP otps e) users2
    (getOTP_deleteOTP_self otps e)]
  refine ⟨?_, ?_⟩
  · rw [List.countP_cons, countP_isOkAuth_replicate]
    simp [isOkAuth]
  · rw [List.countP_cons, countP_isInvalid_replicate]
    simp [isInvalidOrExpired]

/-- C4 (witness): three serialised attempts with the same valid code —
exactly one success and two failures. -/
theorem C4_witness :
    ((verifySeq [⟨"a@b.com", "123456", 100⟩] [] (some "a@b.com") (some "123456") none 50
        ["i1", "i2", "i3"]).1.countP (fun x => isOkAuth x)) = 1
    ∧ ((verifySeq [⟨"a@b.com", "123456", 100⟩] [] (some "a@b.com") (some "123456") none 50
        ["i1", "i2", "i3"]).1.countP (fun x => isInvalidOrExpired x))
      = (["i1", "i2", "i3"] : List String).length - 1 :=
  C4_exactly_one_success [⟨"a@b.com", "123456", 100⟩] [] "a@b.com" "123456" none 50
    ["i1", "i2", "i3"] ⟨"a@b.com", "123456", 100⟩
    (by decide) (by decide) (by decide) (by decide) (by decide) (by decide)

/-- C5 (amended): verify-otp performs no email normalization — the
submitted email is used verbatim in the challenge lookup, the user lookup
and the insert.  Whenever two successful verifications submit emails that
are distinct as strings (in particular, differing only in letter case),
starting from an empty users table they create two distinct user records,
one per verbatim email, rather than resolving to a single record. -/
theorem C5_two_records (e1 e2 c1 c2 : String) (name1 name2 : Option String)
    (x1 x2 now1 now2 : Nat) (u1 u2 : String) (nI1 nR1 nI2 nR2 : Nat)
    (hne : e1 ≠ e2)
    (he1 : e1.isEmpty = false) (he2 : e2.isEmpty = false)
    (hc1 : c1.isEmpty = false) (hc2 : c2.isEmpty = false)
    (hx1 : ¬ x1 < now1) (hx2 : ¬ x2 < now2) :
    verifyOtp [⟨e1, c1, x1⟩, ⟨e2, c2, x2⟩] [] (some e1) (some c1) name1 now1 u1 nI1 nR1
      = (.okAuth ⟨u1, e1, name1, nR1⟩ "Authentication successful",
         [⟨e2, c2, x2⟩], [⟨u1, e1, name1.getD "", nI1⟩])
    ∧ verifyOtp [⟨e2, c2, x2⟩] [⟨u1, e1, name1.getD "", nI1⟩]
        (some e2) (some c2) name2 now2 u2 nI2 nR2
      = (.okAuth ⟨u2, e2, name2, nR2⟩ "Authentication successful",
         [], [⟨u2, e2, name2.getD "", nI2⟩, ⟨u1, e1, name1.getD "", nI1⟩]) := by
  have hne21 : (e2 == e1) = false := beq_eq_false_iff_ne.mpr (Ne.symm hne)
  have hne12 : (e1 == e2) = false := beq_eq_false_iff_ne.mpr hne
  constructor
  · unfold verifyOtp
    simp [reqMissing, he1, hc1, hx1, getOTP, deleteOTP, List.find?, hne21,
      resolveUser, getUser, insertUser]
  · unfold verifyOtp
    simp [reqMissing, he2, hc2, hx2, getOTP, deleteOTP, List.find?,
      resolveUser, getUser, insertUser, hne12]

/-- C5 (amended, witness): concrete instance with `"A@b.com"` and
`"a@b.com"`, which differ only in letter case — two user rows result. -/
theorem C5_witness :
    verifyOtp [⟨"A@b.com", "111111", 90⟩, ⟨"a@b.com", "222222", 90⟩] []
        (some "A@b.com") (some "111111") none 40 "w1" 41 42
      = (.okAuth ⟨"w1", "A@b.com", none, 42⟩ "Authentication successful",
         [⟨"a@b.com", "222222", 90⟩], [⟨"w1", "A@b.com", "", 41⟩])
    ∧ verifyOtp [⟨"a@b.com", "222222", 90⟩] [⟨"w1", "A@b.com", "", 41⟩]
        (some "a@b.com") (some "222222") none 43 "w2" 44 45
      = (.okAuth ⟨"w2", "a@b.com", none, 45⟩ "Authentication successful",
         [], [⟨"w2", "a@b.com", "", 44⟩, ⟨"w1", "A@b.com", "", 41⟩]) :=
  C5_two_records "A@b.com" "a@b.com" "111111" "222222" none none 90 90 40 43 "w1" "w2" 41 42 44 45
    (by decide) (by decide) (by decide) (by decide) (by decide) (by decide) (by decide)

/-- C6 (amended): no DuplicateKey recovery exists.  If the SELECT of line
109 observes no user for the email but the users table observed by the
INSERT of line 114 does hold one (the situation a concurrent creation
would produce), the identity-resolution code propagates `DuplicateKey`
instead of re-reading and returning the now-present record: the error
escapes the handler (it would surface as a 500 through the express error
path), never yielding the stored user. -/
theorem C6_no_recovery (usersAtLookup usersAtInsert : List UserRow) (e : String)
    (name : Option String) (id : String) (nI nR : Nat) (u : UserRow)
    (habs : getUser usersAtLookup e = none) (hpres : getUser usersAtInsert e = some u) :
    resolveUser usersAtLookup usersAtInsert e name id nI nR = .error .duplicateKey := by
  unfold resolveUser
  rw [habs]
  unfold getUser at hpres
  simp [insertUser, hpres]

/-- C6 (witness): concrete instance — an empty table at lookup time, one
row present at insert time, and the resolver surfaces `DuplicateKey`. -/
theorem C6_witness :
    resolveUser [] [⟨"id9", "y@z.com", "", 3⟩] "y@z.com" (some "N") "id8" 4 4
      = .error .duplicateKey :=
  C6_no_recovery [] [⟨"id9", "y@z.com", "", 3⟩] "y@z.com" (some "N") "id8" 4 4
    ⟨"id9", "y@z.com", "", 3⟩ (by decide) (by decide)

/-- C8: delivery-failure semantics of send-otp.  When the email collaborator
fails after the challenge has been stored, the endpoint responds 500, the
fresh challenge (code and `expiresAt = now + 10min`) is still in the
challenge store, and a later verification with that code at any instant not
strictly past the expiry succeeds. -/
theorem C8_delivery_failure (otps : List OtpRow) (users : List UserRow)
    (e : String) (name nameV : Option String) (c : String) (now now2 : Nat)
    (id : String) (nI nR : Nat)
    (he : e.isEmpty = false) (hc : c.isEmpty = false)
    (hnow2 : ¬ now + 10 * 60 * 1000 < now2) :
    sendStatus (sendOtp otps (some e) name c now false).1 = 500
    ∧ getOTP (sendOtp otps (some e) name c now false).2 e = some ⟨e, c, now + 10 * 60 * 1000⟩
    ∧ isOkAuth (verifyOtp (sendOtp otps (some e) name c now false).2 users (some e) (some c)
        nameV now2 id nI nR).1 = true := by
  have hsend : sendOtp otps (some e) name c now false
      = (.deliveryFailure, upsertOTP otps e c (now + 10 * 60 * 1000)) := by
    unfold sendOtp
    simp [reqMissing, he]
  rw [hsend]
  refine ⟨rfl, getOTP_upsertOTP_self otps e c _, ?_⟩
  obtain ⟨u, users2, hv⟩ := verifyOtp_valid (upsertOTP otps e c (now + 10 * 60 * 1000)) users
    e c nameV now2 id nI nR ⟨e, c, now + 10 * 60 * 1000⟩ he hc
    (getOTP_upsertOTP_self otps e c _) rfl hnow2
  rw [hv]
  rfl

/-- C8 (witness): concrete instance — delivery fails, status is 500, the
challenge row survives, and verifying with the stored code succeeds. -/
theorem C8_witness :
    sendStatus (sendOtp [] (some "a@b.com") none "123456" 0 false).1 = 500
    ∧ getOTP (sendOtp [] (some "a@b.com") none "123456" 0 false).2 "a@b.com"
        = some ⟨"a@b.com", "123456", 0 + 10 * 60 * 1000⟩
    ∧ isOkAuth (verifyOtp (sendOtp [] (some "a@b.com") none "123456" 0 false).2 []
        (some "a@b.com") (some "123456") none 5 "id1" 5 5).1 = true :=
  C8_delivery_failure [] [] "a@b.com" none none "123456" 0 5 "id1" 5 5
    (by decide) (by decide) (by decide)

/-- C9: failed verification preserves state.  Whenever verify-otp returns
the 401 `Invalid or expired OTP` outcome — challenge absent, code mismatch,
or expired — both tables come back exactly as they went in: the pending
challenge row (if any) is neither deleted nor modified and no user row is
created or mutated, so unlimited retries remain possible. -/
theorem C9_failed_verify_frame (otps : List OtpRow) (users : List UserRow)
    (email otp name : Option String) (now : Nat) (id : String) (nI nR : Nat)
    (msg : String) (otps2 : List OtpRow) (users2 : List UserRow)
    (h : verifyOtp otps users email otp name now id nI nR
        = (.invalidOrExpired msg, otps2, users2)) :
    otps2 = otps ∧ users2 = users := by
  unfold verifyOtp at h
  split at h
  · simp [Prod.mk.injEq] at h
  · dsimp only at h
    split at h
    · simp only [Prod.mk.injEq, VerifyResult.invalidOrExpired.injEq] at h
      exact ⟨h.2.1.symm, h.2.2.symm⟩
    · split at h
      · simp only [Prod.mk.injEq, VerifyResult.invalidOrExpired.injEq] at h
        exact ⟨h.2.1.symm, h.2.2.symm⟩
      · split at h
        · simp [Prod.mk.injEq] at h
        · simp [Prod.mk.injEq] at h

/-- C9 (witness): a mismatching code at a concrete state — the challenge
row and the (empty) users table are returned unchanged. -/
theorem C9_witness :
    ([⟨"a@b.com", "123456", 100⟩] : List OtpRow) = [⟨"a@b.com", "123456", 100⟩]
    ∧ ([] : List UserRow) = [] :=
  C9_failed_verify_frame [⟨"a@b.com", "123456", 100⟩] [] (some "a@b.com") (some "999999")
    none 50 "id1" 50 50 "Invalid or expired OTP" [⟨"a@b.com", "123456", 100⟩] [] (by decide)

/-- C10 (amended): first-registration response consistency holds for id and
email unconditionally, and in full exactly when a display name was supplied
and the two `Date.now()` samples of lines 114 and 115 coincide: then the
200 response's user object agrees field for field with the inserted row
(the insert stores `name || ''`, the response carries the raw `name`, so a
missing name breaks the name field; a clock tick between the two samples
breaks `created_at`). -/
theorem C10_fresh_consistency (otps : List OtpRow) (users : List UserRow) (e c n : String)
    (now t : Nat) (id : String) (r : OtpRow)
    (he : e.isEmpty = false) (hc : c.isEmpty = false)
    (hr : getOTP otps e = some r) (hcode : r.otp = c) (hexp : ¬ r.expires_at < now)
    (hfresh : getUser users e = none) :
    verifyOtp otps users (some e) (some c) (some n) now id t t
      = (.okAuth ⟨id, e, some n, t⟩ "Authentication successful", deleteOTP otps e,
         ⟨id, e, n, t⟩ :: users)
    ∧ respMatchesRow ⟨id, e, some n, t⟩ ⟨id, e, n, t⟩ := by
  constructor
  · have hfind : users.find? (fun u => u.email == e) = none := hfresh
    unfold verifyOtp
    simp [reqMissing, he, hc, hr, hcode, hexp, resolveUser, hfresh, insertUser, hfind]
  · exact ⟨rfl, rfl, rfl, rfl⟩

/-- C10 (witness): concrete fresh registration with a supplied name and
equal clock samples — the response user matches the inserted row. -/
theorem C10_witness :
    verifyOtp [⟨"n@u.com", "314159", 100⟩] [] (some "n@u.com") (some "314159") (some "Ada")
        50 "idN" 60 60
      = (.okAuth ⟨"idN", "n@u.com", some "Ada", 60⟩ "Authentication successful",
         deleteOTP [⟨"n@u.com", "314159", 100⟩] "n@u.com",
         [⟨"idN", "n@u.com", "Ada", 60⟩])
    ∧ respMatchesRow ⟨"idN", "n@u.com", some "Ada", 60⟩ ⟨"idN", "n@u.com", "Ada", 60⟩ :=
  C10_fresh_consistency [⟨"n@u.com", "314159", 100⟩] [] "n@u.com" "314159" "Ada" 50 60 "idN"
    ⟨"n@u.com", "314159", 100⟩ (by decide) (by decide) (by decide) (by decide) (by decide)
    (by decide)
